import Mathlib

set_option maxHeartbeats 1000000

/-!
Verification development for src/student_career_path_recommender.py.

The Python agent is embedded shallowly: its pure helpers become Lean
functions, the mutable SimpleCareerAgent object becomes an explicit
AgentState record threaded through pure step functions, and the
nondeterministic collaborators (the HTTP language-model calls and the
random template choices) become an explicit per-turn oracle record.
Machine integers do not occur; the only numerics are small Nats and the
exact rational completeness score (Python computes filled/4 on floats,
which is exact for filled in 0..4, so ℚ is a faithful model).
-/

/-- Python str.lower, character by character (the program only handles
ASCII text; Char.toLower agrees with Python there). -/
def lowerStr (s : String) : String := String.mk (s.toList.map Char.toLower)

/-- Python substring containment (the in operator on str), on explicit
character lists. -/
def containsSub : List Char → List Char → Bool
  | [], needle => needle.isEmpty
  | c :: t, needle => needle.isPrefixOf (c :: t) || containsSub t needle

/-- StudentProfile (source lines 30-38): seven category lists of strings,
all empty at construction time. -/
structure StudentProfile where
  interests : List String
  hobbies : List String
  subjects : List String
  strengths : List String
  dislikes : List String
  personality : List String
  goals : List String
  deriving DecidableEq, Repr

def emptyProfile : StudentProfile := ⟨[], [], [], [], [], [], []⟩

/-- The count of populated core categories, from completeness
(source lines 40-43): fields = [interests, hobbies, subjects, strengths],
filled = sum(1 for field in fields if field). -/
def StudentProfile.filledCount (p : StudentProfile) : Nat :=
  List.countP (fun l => !l.isEmpty) [p.interests, p.hobbies, p.subjects, p.strengths]

/-- completeness (source lines 40-43): filled / len(fields) with
len(fields) = 4; exact in ℚ, and exact in Python floats as well since the
numerator is in 0..4. -/
def StudentProfile.completeness (p : StudentProfile) : ℚ :=
  (p.filledCount : ℚ) / 4

/-- A profile delta as produced by information extraction: the same seven
keys; a key absent from the Python dict is read back as [] via dict.get,
so it is modelled as the empty list. -/
structure ProfileDelta where
  interests : List String
  hobbies : List String
  subjects : List String
  strengths : List String
  dislikes : List String
  personality : List String
  goals : List String
  deriving DecidableEq, Repr

def emptyDelta : ProfileDelta := ⟨[], [], [], [], [], [], []⟩

/-- add_unique (source lines 638-641): append each nonempty item whose
lowercased form is not already present, checking against the list as built
so far (the Python loop mutates target_list in place while iterating over
new_items, which is exactly a left fold). -/
def addUnique (target : List String) (newItems : List String) : List String :=
  newItems.foldl
    (fun acc item =>
      if item ≠ "" ∧ lowerStr item ∉ acc.map lowerStr then acc ++ [item] else acc)
    target

/-- _update_profile (source lines 633-649). The early return on a falsy
dict is extensionally the identity, because an empty dict yields [] for
every key and merging [] changes nothing; so the merge is modelled
directly on the seven-field delta record. -/
def updateProfile (p : StudentProfile) (d : ProfileDelta) : StudentProfile :=
  { interests := addUnique p.interests d.interests
    hobbies := addUnique p.hobbies d.hobbies
    subjects := addUnique p.subjects d.subjects
    strengths := addUnique p.strengths d.strengths
    dislikes := addUnique p.dislikes d.dislikes
    personality := addUnique p.personality d.personality
    goals := addUnique p.goals d.goals }

/-- The fixed keyword set of _is_career_related_question
(source lines 559-565). -/
def careerKeywords : List String :=
  ["career", "job", "profession", "recommend", "suggestion",
   "what should i", "advice", "path", "future", "work"]

/-- _is_career_related_question (source lines 559-565): any of the fixed
keywords occurs in the lowercased message. -/
def isCareerRelatedQuestion (message : String) : Bool :=
  careerKeywords.any (fun k => containsSub (lowerStr message).toList k.toList)

/-!
Section: the deterministic fallback extractor, _extract_info_fallback (138-249)

The Python function receives the full extraction prompt and first recovers
the raw message via the regex message: "(.*?)" — the identity round trip
for messages containing no double quote and no newline, which is the only
kind the claims exercise — so the extractor is modelled directly on the
message. The patterns of the shape key(.+?)(?:[.,!?]|$) are modelled with
Python re semantics for single-line inputs: the lazy group captures the
shortest nonempty run of non-newline characters followed by a terminator
character or the end of the string, and findall scans left to right,
resuming after each match. (The dollar-matches-before-a-final-newline
subtlety of Python re is not modelled; no input here contains a newline.)
-/

def terminatorChars : List Char := ['.', ',', '!', '?']

/-- The lazy regex fragment (.+?)(?:[.,!?]|$) applied at the start of s:
returns the captured group and the remainder of s after the whole match,
or none when there is no match at this position. -/
def lazySplit : List Char → Option (List Char × List Char)
  | [] => none
  | c :: rest =>
    if c = '\n' then none
    else
      match rest with
      | [] => some ([c], [])
      | d :: rest2 =>
        if terminatorChars.contains d then some ([c], rest2)
        else
          match lazySplit rest with
          | some capr => some (c :: capr.1, capr.2)
          | none => none

/-- re.findall for a pattern literal-key ++ (.+?)(?:[.,!?]|$): collect the
captures of all non-overlapping matches, left to right. Fuel-driven so the
definition is structural; every step consumes at least one character, so
fuel s.length + 1 realises the full scan. -/
def findAllAux (key : List Char) : Nat → List Char → List (List Char)
  | 0, _ => []
  | _ + 1, [] => []
  | fuel + 1, c :: rest =>
    if key.isPrefixOf (c :: rest) then
      match lazySplit (List.drop key.length (c :: rest)) with
      | some capr => capr.1 :: findAllAux key fuel capr.2
      | none => findAllAux key fuel rest
    else findAllAux key fuel rest

def findAll (key : List Char) (s : List Char) : List (List Char) :=
  findAllAux key (s.length + 1) s

/-- Python str.strip(): drop leading and trailing whitespace. -/
def stripWS (s : List Char) : List Char :=
  ((s.dropWhile Char.isWhitespace).reverse.dropWhile Char.isWhitespace).reverse

/-- Python str.split() with no argument: maximal runs of non-whitespace. -/
def splitWords (s : List Char) : List (List Char) :=
  (s.foldr
    (fun c acc =>
      if c.isWhitespace then [] :: acc
      else
        match acc with
        | [] => [[c]]
        | w :: ws => (c :: w) :: ws)
    [[]]).filter (fun w => !w.isEmpty)

/-- Python str.title(): a letter is uppercased when the previous character
is not a letter, lowercased otherwise; other characters pass through and
break words. -/
def titleAux : Bool → List Char → List Char
  | _, [] => []
  | prevAlpha, c :: rest =>
    (if c.isAlpha then (if prevAlpha then c.toLower else c.toUpper) else c)
      :: titleAux c.isAlpha rest

def titleCase (s : List Char) : List Char := titleAux false s

/-- The alternatives of the stop-word pattern (and|or|the|a|an), in the
order the regex engine tries them. -/
def stopwords : List (List Char) :=
  [['a', 'n', 'd'], ['o', 'r'], ['t', 'h', 'e'], ['a'], ['a', 'n']]

/-- Word character for the regex word boundary: [a-zA-Z0-9_]. -/
def isWordChar (c : Char) : Bool := c.isAlphanum || c = '_'

/-- A word boundary holds after a stop word when the next character is not
a word character (or the string ends). -/
def boundaryAfter : List Char → Bool
  | [] => true
  | c :: _ => !isWordChar c

/-- Try the stop-word alternatives at the current position (the boundary
before the word is checked by the caller); return the rest of the string
after the matched word. -/
def matchStopword (s : List Char) : Option (List Char) :=
  stopwords.findSome? fun w =>
    if w.isPrefixOf s && boundaryAfter (s.drop w.length) then some (s.drop w.length)
    else none

/-- re.sub of the stop-word pattern with the empty string: scan left to
right, deleting boundary-delimited stop words. prevIsWord tracks whether
the previously scanned character of the original string is a word
character (the boundary before a candidate). Fuel-driven; every step
consumes at least one character. -/
def subStopAux : Nat → Bool → List Char → List Char
  | 0, _, s => s
  | _ + 1, _, [] => []
  | fuel + 1, prevIsWord, c :: rest =>
    if prevIsWord then c :: subStopAux fuel (isWordChar c) rest
    else
      match matchStopword (c :: rest) with
      | some r => subStopAux fuel true r
      | none => c :: subStopAux fuel (isWordChar c) rest

def subStop (s : List Char) : List Char := subStopAux (s.length + 1) false s

/-- Cleanup applied to each interest capture (source lines 209-215):
strip the stop words, strip whitespace, require length > 2, keep the
first three words, join with single spaces and title-case. (The Python
check clean_match and len(clean_match) > 2 collapses to the length
check.) -/
def cleanInterest (m : List Char) : Option String :=
  let cleaned := stripWS (subStop m)
  if cleaned.length > 2 then
    some (String.mk (titleCase (List.intercalate [' '] ((splitWords cleaned).take 3))))
  else none

/-- subject_mapping (source lines 158-188), in dict insertion order. -/
def subjectMapping : List (String × String) :=
  [("biology", "Biology"), ("bio", "Biology"), ("life science", "Biology"),
   ("chemistry", "Chemistry"), ("chem", "Chemistry"),
   ("physics", "Physics"), ("physical science", "Physics"),
   ("science", "Science"), ("sciences", "Science"),
   ("math", "Mathematics"), ("mathematics", "Mathematics"), ("calculus", "Mathematics"),
   ("algebra", "Mathematics"), ("geometry", "Mathematics"),
   ("english", "English"), ("literature", "Literature"), ("writing", "Writing"),
   ("reading", "Literature"), ("language", "English"),
   ("history", "History"), ("geography", "Geography"), ("social studies", "Social Studies"),
   ("government", "Government"), ("civics", "Government"),
   ("art", "Art"), ("music", "Music"), ("drama", "Drama"), ("theater", "Drama"),
   ("dance", "Dance"), ("creative", "Creative Arts"),
   ("pe", "Physical Education"), ("sports", "Physical Education"), ("gym", "Physical Education"),
   ("physical education", "Physical Education"),
   ("computer", "Computer Science"), ("coding", "Computer Science"),
   ("programming", "Computer Science"),
   ("technology", "Technology"), ("tech", "Technology")]

/-- hobby_keywords (source lines 218-227), in dict insertion order. -/
def hobbyKeywords : List (String × String) :=
  [("reading", "Reading"), ("gaming", "Gaming"), ("games", "Gaming"),
   ("painting", "Painting"), ("drawing", "Drawing"), ("sketching", "Drawing"),
   ("singing", "Singing"), ("dancing", "Dancing"),
   ("cooking", "Cooking"), ("gardening", "Gardening"),
   ("photography", "Photography"), ("writing", "Writing"),
   ("swimming", "Swimming"), ("running", "Running"),
   ("hiking", "Hiking"), ("camping", "Camping"),
   ("playing", "Playing Music"), ("instrument", "Playing Music")]

/-- The literal prefixes of interest_patterns (source lines 197-204), in
list order; each pattern is prefix ++ (.+?)(?:[.,!?]|$). -/
def interestKeys : List String :=
  ["interested in ", "love ", "like ", "enjoy ", "passionate about ", "fascinated by "]

/-- The literal prefixes of goal_patterns (source lines 235-240). -/
def goalKeys : List String :=
  ["want to be ", "dream of being ", "hope to become ", "aspire to be "]

/-- _extract_info_fallback (source lines 138-249) on the recovered
message: lowercase once, then scan subjects by substring containment,
interests by the verb patterns, hobbies by substring containment, goals by
the goal patterns; every list is deduplicated by exact membership as it is
built. strengths, dislikes and personality are never populated by the
fallback. -/
def extractInfoFallback (message : String) : ProfileDelta :=
  let msg := (lowerStr message).toList
  let subjects := subjectMapping.foldl
    (fun acc kv =>
      if containsSub msg kv.1.toList && !acc.contains kv.2 then acc ++ [kv.2] else acc)
    []
  let interests := interestKeys.foldl
    (fun acc key =>
      (findAll key.toList msg).foldl
        (fun acc2 m =>
          match cleanInterest m with
          | some i => if !acc2.contains i then acc2 ++ [i] else acc2
          | none => acc2)
        acc)
    []
  let hobbies := hobbyKeywords.foldl
    (fun acc kv =>
      if containsSub msg kv.1.toList && !acc.contains kv.2 then acc ++ [kv.2] else acc)
    []
  let goals := goalKeys.foldl
    (fun acc key =>
      (findAll key.toList msg).foldl
        (fun acc2 m =>
          let g := String.mk (titleCase (stripWS m))
          if !acc2.contains g then acc2 ++ [g] else acc2)
        acc)
    []
  { interests := interests, hobbies := hobbies, subjects := subjects,
    strengths := [], dislikes := [], personality := [], goals := goals }

/-!
Section: the rule-based recommendation fallback (267-422)

_generate_recommendations_fallback re-extracts the interests, subjects and
hobbies lists from the prompt built by DynamicPrompts.generate_recommendations;
that round trip is the identity for items containing no comma, no newline
and neither of the filtered placeholder substrings, so the cascade is
modelled directly on the three lists. The claims are settled at the level
of the selected records; the final formatter (414-422) renders the first
three records (title, reason, education, next step) verbatim.
-/

structure CareerRec where
  title : String
  reason : String
  education : String
  nextStep : String
  deriving DecidableEq, Repr

def bioClusterWords : List String :=
  ["biology", "life science", "living things", "animals", "plants",
   "genetics", "ecology", "nature"]

def medClusterWords : List String :=
  ["medicine", "doctor", "health", "medical", "anatomy", "physiology"]

def chemClusterWords : List String :=
  ["chemistry", "chemical", "reactions", "compounds", "lab work"]

def engClusterWords : List String :=
  ["physics", "math", "engineering", "mechanical", "electrical", "software", "computer"]

def creativeClusterWords : List String :=
  ["art", "creative", "design", "drawing", "painting", "music", "writing"]

def psychClusterWords : List String :=
  ["psychology", "people", "help", "social", "counseling", "therapy"]

def businessClusterWords : List String :=
  ["business", "management", "marketing", "finance", "economics"]

def teachingClusterWords : List String :=
  ["teaching", "education", "explain", "tutor"]

/-- any(word in all_text for word in cluster). -/
def anyClusterWord (allText : List Char) (ws : List String) : Bool :=
  ws.any (fun w => containsSub allText w.toList)

def bioRecs : List CareerRec :=
  [⟨"Biologist/Research Scientist",
    "Your interest in biology aligns perfectly with research in living systems",
    "Bachelor\x27s in Biology, then Master\x27s/PhD for research roles",
    "Look into different biology specializations like marine biology, genetics, or ecology"⟩,
   ⟨"Healthcare Professional (Doctor/Nurse)",
    "Biology knowledge is fundamental for understanding human health",
    "Pre-med courses, then medical school or nursing program",
    "Research medical school requirements and consider volunteering at hospitals"⟩,
   ⟨"Environmental Scientist",
    "Combines biology with environmental protection and conservation",
    "Bachelor\x27s in Environmental Science or Biology",
    "Learn about environmental issues and conservation organizations"⟩]

def medRecs : List CareerRec :=
  [⟨"Medical Doctor",
    "Direct path to practicing medicine and helping patients",
    "Bachelor\x27s degree, MCAT, medical school, residency",
    "Research medical specialties and volunteer at healthcare facilities"⟩,
   ⟨"Physical Therapist",
    "Combines medical knowledge with hands-on patient care",
    "Bachelor\x27s degree then Doctor of Physical Therapy program",
    "Shadow a physical therapist to understand the daily work"⟩]

def chemRecs : List CareerRec :=
  [⟨"Chemist",
    "Your chemistry interest opens doors to research and development",
    "Bachelor\x27s in Chemistry, Master\x27s/PhD for advanced roles",
    "Explore different chemistry fields like organic, analytical, or biochemistry"⟩,
   ⟨"Pharmaceutical Scientist",
    "Combines chemistry with medicine to develop new drugs",
    "Bachelor\x27s in Chemistry/Biology, advanced degree helpful",
    "Learn about drug development and pharmaceutical companies"⟩]

def softwareEngineerRec : CareerRec :=
  ⟨"Software Engineer",
   "Your interest in computers and logical thinking fits programming",
   "Bachelor\x27s in Computer Science or related field",
   "Start learning a programming language like Python or Java"⟩

def genericEngineerRec : CareerRec :=
  ⟨"Engineer",
   "Your interest in math and science subjects shows analytical thinking",
   "Bachelor\x27s degree in Engineering",
   "Explore different engineering fields like mechanical, electrical, or civil"⟩

def creativeRecs : List CareerRec :=
  [⟨"Graphic Designer",
    "Your creative interests and artistic skills align well",
    "Bachelor\x27s in Graphic Design or related field",
    "Start building a portfolio of your creative work"⟩,
   ⟨"Creative Professional",
    "Many careers can utilize your artistic talents",
    "Varies by field - portfolio often more important than degree",
    "Explore specific creative fields like animation, web design, or illustration"⟩]

def psychRecs : List CareerRec :=
  [⟨"Psychologist/Counselor",
    "Your interest in understanding people and helping them",
    "Bachelor\x27s in Psychology, then Master\x27s/PhD for clinical work",
    "Learn about different psychology specializations"⟩,
   ⟨"Social Worker",
    "Direct path to helping people and communities",
    "Bachelor\x27s in Social Work or related field",
    "Volunteer with community organizations to gain experience"⟩]

def businessRecs : List CareerRec :=
  [⟨"Business Professional",
    "Your interest in business concepts opens many career paths",
    "Bachelor\x27s in Business Administration or related field",
    "Explore different business areas like marketing, finance, or management"⟩]

def teachingRecs : List CareerRec :=
  [⟨"Teacher/Educator",
    "Your interest in sharing knowledge and helping others learn",
    "Bachelor\x27s degree plus teaching certification",
    "Consider volunteering with tutoring or mentoring programs"⟩]

def exploreRecs : List CareerRec :=
  [⟨"Explore Multiple Paths",
    "Many career options are available - let\x27s learn more about your interests",
    "Various options depending on chosen field",
    "Tell me more about what specific activities or subjects excite you most"⟩]

/-- all_text (source line 274): lowercase of the space join of
interests ++ subjects ++ hobbies. -/
def allProfileText (interests subjects hobbies : List String) : List Char :=
  (lowerStr (String.intercalate " " (interests ++ subjects ++ hobbies))).toList

/-- The if/elif cascade of _generate_recommendations_fallback
(source lines 277-412): first matching cluster wins; inside the
physics/engineering cluster the software branch is taken when the text
contains software, computer or programming (line 336). -/
def generateRecommendationsFallback (interests subjects hobbies : List String) :
    List CareerRec :=
  let allText := allProfileText interests subjects hobbies
  if anyClusterWord allText bioClusterWords then bioRecs
  else if anyClusterWord allText medClusterWords then medRecs
  else if anyClusterWord allText chemClusterWords then chemRecs
  else if anyClusterWord allText engClusterWords then
    if containsSub allText "software".toList || containsSub allText "computer".toList
        || containsSub allText "programming".toList then [softwareEngineerRec]
    else [genericEngineerRec]
  else if anyClusterWord allText creativeClusterWords then creativeRecs
  else if anyClusterWord allText psychClusterWords then psychRecs
  else if anyClusterWord allText businessClusterWords then businessRecs
  else if anyClusterWord allText teachingClusterWords then teachingRecs
  else exploreRecs

/-- The career titles rendered by the output formatter (source line 416
takes recommendations[:3]). -/
def recommendationTitles (interests subjects hobbies : List String) : List String :=
  ((generateRecommendationsFallback interests subjects hobbies).take 3).map CareerRec.title

/-!
Section: the conversation state machine, SimpleCareerAgent (538-817)

The mutable agent object becomes an AgentState record; process_message and
_generate_response become pure step functions. The language-model calls
are replaced by a per-turn oracle: _extract_info already converts every
internal failure into an empty dict, so its outcome is just a delta; each
generation helper either yields some text or raises inside its own
try/except (modelled as none, taking the fixed except branch of the helper);
and the top-level try/except of process_message is exercised by an
explicit unexpectedError flag that makes response generation fail with an
exception none of the helpers catches. Turn timestamps
(datetime.now().isoformat()) are the only field of a history entry not
modelled; nothing reads them. The profile snapshot comparison
(json.dumps with sorted keys) is string equality of a canonical dump,
which on these dicts of string lists coincides with structural equality
of the profile record.
-/

inductive ConversationState where
  | greeting
  | gatheringInfo
  | clarifying
  | recommending
  | discussing
  deriving DecidableEq, Repr

inductive ResponseType where
  | greeting
  | questions
  | recommendations
  | discussion
  | fallback
  deriving DecidableEq, Repr

/-- One history entry (source lines 573-578 and 596-601), minus the
timestamp. -/
structure Turn where
  role : String
  content : String
  stateAt : ConversationState
  deriving DecidableEq, Repr

/-- The metadata dict of a response; a key absent from the Python dict is
none. The Python keys are completeness, error, fallback and
profile_summary. -/
structure Metadata where
  completeness : Option Nat := none
  error : Option Bool := none
  usedFallback : Option Bool := none
  profileSummary : Option StudentProfile := none
  deriving DecidableEq, Repr

/-- The structured response dict: type tag, content, metadata. -/
structure Response where
  rtype : ResponseType
  content : String
  metadata : Metadata
  deriving DecidableEq, Repr

/-- Per-turn resolution of the nondeterministic collaborators. -/
structure TurnOracle where
  extracted : ProfileDelta
  unexpectedError : Bool
  recText : Option String
  discText : Option String
  questText : Option String
  deriving Repr

/-- The mutable fields of SimpleCareerAgent (source lines 539-547);
the rate limiter and the LLM client hold no state the step functions
read. -/
structure AgentState where
  profile : StudentProfile
  state : ConversationState
  conversationHistory : List Turn
  askedQuestions : List String
  consecutiveClarifying : Nat
  maxHistory : Nat
  recommendationsGiven : Bool
  deriving DecidableEq, Repr

/-- A freshly constructed agent (source lines 539-547); max_history
defaults to 8. -/
def initialAgent (maxHistory : Nat) : AgentState :=
  ⟨emptyProfile, ConversationState.greeting, [], [], 0, maxHistory, false⟩

/-- _trim_history (source lines 554-557): the Python slice h[-max:] keeps
the last max entries — except that for max = 0 the slice [-0:] is [0:],
which keeps the whole list. -/
def trimHistory (maxH : Nat) (h : List Turn) : List Turn :=
  if h.length > maxH then
    if maxH = 0 then h else h.drop (h.length - maxH)
  else h

/-- int(profile.completeness() * 100): exact, since completeness is
filled/4 with filled in 0..4. -/
def completenessPct (p : StudentProfile) : Nat := p.filledCount * 25

/-- The greeting text of _greeting_response (source lines 717-732). -/
def greetingText : String :=
  "Hi! I\x27m your AI career counselor. I\x27m here to help you discover career paths that match your interests and strengths.\n\nLet\x27s start with getting to know you:\n- What subjects or activities do you really enjoy?\n- What do you like to do in your free time?\n- Is there anything you\x27re naturally good at?\n\nFeel free to share whatever comes to mind - we can have a casual conversation!"

def greetingResponse : Response :=
  ⟨ResponseType.greeting, greetingText, { completeness := some 0 }⟩

/-- _generate_recommendations (source lines 758-781): on success the LLM
text with completeness and profile summary metadata, on an internal
exception the fixed apology text with an error flag — the type tag is
recommendations either way. -/
def recommendationsResponse (p : StudentProfile) (recText : Option String) : Response :=
  match recText with
  | some s =>
    ⟨ResponseType.recommendations, s,
      { completeness := some (completenessPct p), profileSummary := some p }⟩
  | none =>
    ⟨ResponseType.recommendations,
      "Based on what you\x27ve shared, I can see some potential career paths. Could you tell me a bit more about what specifically interests you so I can give better recommendations?",
      { error := some true }⟩

/-- _handle_discussion (source lines 695-715). -/
def discussionResponse (p : StudentProfile) (discText : Option String) : Response :=
  match discText with
  | some s =>
    ⟨ResponseType.discussion, s, { completeness := some (completenessPct p) }⟩
  | none =>
    ⟨ResponseType.discussion,
      "That\x27s interesting! Would you like to explore any career options related to what we\x27ve discussed?",
      { error := some true }⟩

/-- The fixed question text of the except branch of _generate_questions
(source lines 750-756). -/
def questionsFallbackText : String :=
  "Tell me more about what you enjoy doing! What kind of activities make you lose track of time?"

/-- The fallback utterances of _fallback_response (source lines 783-797);
the dict covers every state, so the .get default is never taken. -/
def fallbackContent : ConversationState → String
  | ConversationState.greeting => "Hi! What subjects or activities do you enjoy most?"
  | ConversationState.gatheringInfo => "Tell me about your interests and hobbies."
  | ConversationState.clarifying => "What kind of activities do you find most engaging?"
  | ConversationState.recommending => "Let me suggest some careers based on your interests."
  | ConversationState.discussing => "What would you like to know more about?"

def fallbackResponse (s : ConversationState) : Response :=
  ⟨ResponseType.fallback, fallbackContent s, { error := some true }⟩

/-- _generate_response (source lines 653-693). The transient assignment
state = RECOMMENDING is overwritten by state = DISCUSSING before the
method returns (every exception inside _generate_recommendations is
caught there), so only the net state change is modelled. In the final
branch the state is set to CLARIFYING and _generate_questions appends the
generated question to asked_questions only when no exception occurs. -/
def generateResponse (a : AgentState) (message : String) (t : TurnOracle) :
    AgentState × Response :=
  if a.state = ConversationState.greeting then
    ({ a with state := ConversationState.gatheringInfo }, greetingResponse)
  else if isCareerRelatedQuestion message = true ∧ 0 < a.profile.completeness then
    ({ a with state := ConversationState.discussing, recommendationsGiven := true },
      recommendationsResponse a.profile t.recText)
  else if a.state = ConversationState.discussing then
    (a, discussionResponse a.profile t.discText)
  else if 1 / 2 ≤ a.profile.completeness ∧ a.recommendationsGiven = false then
    ({ a with state := ConversationState.discussing, recommendationsGiven := true },
      recommendationsResponse a.profile t.recText)
  else if 3 < a.consecutiveClarifying then
    ({ a with
        state := ConversationState.discussing
        recommendationsGiven := true
        consecutiveClarifying := 0 },
      recommendationsResponse a.profile t.recText)
  else
    match t.questText with
    | some q =>
      ({ a with
          state := ConversationState.clarifying
          askedQuestions := a.askedQuestions ++ [q] },
        ⟨ResponseType.questions, q, { completeness := some (completenessPct a.profile) }⟩)
    | none =>
      ({ a with state := ConversationState.clarifying },
        ⟨ResponseType.questions, questionsFallbackText, { usedFallback := some true }⟩)

/-- The first half of process_message (source lines 572-590): append the
student turn and trim (572-579), merge the extracted delta (582-584) and
update the no-new-info counter (586-590). This is the agent state at the
point where _generate_response is entered. -/
def preResponseState (a : AgentState) (message : String) (t : TurnOracle) : AgentState :=
  let h1 := trimHistory a.maxHistory
    (a.conversationHistory ++ [⟨"student", message, a.state⟩])
  let a1 := { a with conversationHistory := h1 }
  let merged := updateProfile a1.profile t.extracted
  let changed := merged ≠ a1.profile
  let a2 := { a1 with profile := merged }
  if changed ∨ isCareerRelatedQuestion message = true then
    { a2 with consecutiveClarifying := 0 }
  else
    { a2 with consecutiveClarifying := a2.consecutiveClarifying + 1 }

/-- The tail of process_message (source lines 596-602): append the
counselor turn, recording the state after generation, and trim. -/
def appendCounselorTurn (a : AgentState) (r : Response) : AgentState :=
  let h2 := trimHistory a.maxHistory
    (a.conversationHistory ++ [⟨"counselor", r.content, a.state⟩])
  { a with conversationHistory := h2 }

/-- process_message (source lines 567-608): build the pre-response state,
then generate the response and append the counselor turn — unless an
unexpected internal error fires during generation, in which case the
top-level except returns _fallback_response for the state at that point
(the mutations already performed persist, and no state transition has
happened yet). -/
def processMessage (a : AgentState) (message : String) (t : TurnOracle) :
    AgentState × Response :=
  let a3 := preResponseState a message t
  if t.unexpectedError then (a3, fallbackResponse a3.state)
  else
    let ar := generateResponse a3 message t
    (appendCounselorTurn ar.1 ar.2, ar.2)

/-- reset (source lines 799-807): every mutable conversation field back to
its construction default; max_history (and the rate limiter and client)
are untouched. -/
def AgentState.reset (a : AgentState) : AgentState :=
  { profile := emptyProfile, state := ConversationState.greeting,
    conversationHistory := [], askedQuestions := [], consecutiveClarifying := 0,
    maxHistory := a.maxHistory, recommendationsGiven := false }

/-!
Section: concrete fixtures used to instantiate the universally quantified
theorems below on executable inputs
-/

/-- An oracle for a turn on which every collaborator succeeds and the
extractor finds nothing. -/
def quietOracle : TurnOracle :=
  ⟨emptyDelta, false, some "rec text", some "disc text", some "next question"⟩

/-- An oracle for a turn on which an unexpected internal error fires. -/
def crashOracle : TurnOracle := ⟨emptyDelta, true, none, none, none⟩

/-- An oracle whose extraction found one interest. -/
def interestOracle : TurnOracle :=
  ⟨{ emptyDelta with interests := ["Robotics"] }, false,
    some "rec text", some "disc text", some "next question"⟩

/-- An agent that has been gathering information for a while: one
interest on file, three consecutive uninformative turns. -/
def exampleAgent : AgentState :=
  { profile := { emptyProfile with interests := ["Robotics"] }
    state := ConversationState.clarifying
    conversationHistory := []
    askedQuestions := []
    consecutiveClarifying := 3
    maxHistory := 8
    recommendationsGiven := true }

/-- A delta with mixed-case duplicates, for exercising the merge. -/
def exampleDelta : ProfileDelta :=
  { emptyDelta with interests := ["Robotics", "ROBOTICS", "Chess"], goals := ["Engineer"] }

/-- The fixed message of the extraction test property. -/
def sampleMessage : String :=
  "I love painting and hiking, and I\x27m interested in biology"

/-- An agent whose history is already at its (small) bound, so that this
turn really evicts the oldest entries. -/
def busyAgent : AgentState :=
  { exampleAgent with
      maxHistory := 2
      conversationHistory :=
        [⟨"student", "first message", ConversationState.greeting⟩,
         ⟨"counselor", "first reply", ConversationState.gatheringInfo⟩] }

/-- The case-insensitive deduplication invariant over all seven
categories. -/
def profileInv (p : StudentProfile) : Prop :=
  (p.interests.map lowerStr).Nodup ∧ (p.hobbies.map lowerStr).Nodup ∧
  (p.subjects.map lowerStr).Nodup ∧ (p.strengths.map lowerStr).Nodup ∧
  (p.dislikes.map lowerStr).Nodup ∧ (p.personality.map lowerStr).Nodup ∧
  (p.goals.map lowerStr).Nodup

/-- The profiles reachable from the empty profile by merge operations,
which is how the agent only ever mutates its profile. -/
inductive ReachableProfile : StudentProfile → Prop
  | empty : ReachableProfile emptyProfile
  | merge (p : StudentProfile) (d : ProfileDelta) :
      ReachableProfile p → ReachableProfile (updateProfile p d)

/-!
Section: lemmas about the profile merge
-/

theorem addUnique_cons (t : List String) (i : String) (n : List String) :
    addUnique t (i :: n) =
      addUnique (if i ≠ "" ∧ lowerStr i ∉ t.map lowerStr then t ++ [i] else t) n := rfl

theorem addUnique_nil (t : List String) : addUnique t [] = t := rfl

/-- Merging only ever appends: the target is an initial segment of the
result. -/
theorem addUnique_append_exists (n : List String) :
    ∀ t, ∃ ex, addUnique t n = t ++ ex := by
  induction n with
  | nil => intro t; exact ⟨[], by simp [addUnique_nil]⟩
  | cons i n ih =>
    intro t
    rw [addUnique_cons]
    by_cases h : i ≠ "" ∧ lowerStr i ∉ t.map lowerStr
    · rw [if_pos h]
      obtain ⟨ex, hex⟩ := ih (t ++ [i])
      exact ⟨i :: ex, by rw [hex, List.append_assoc]; rfl⟩
    · rw [if_neg h]; exact ih t

/-- A lowered entry already present stays present through a merge. -/
theorem mem_lower_addUnique {x : String} (n : List String) (t : List String)
    (h : lowerStr x ∈ t.map lowerStr) :
    lowerStr x ∈ (addUnique t n).map lowerStr := by
  obtain ⟨ex, hex⟩ := addUnique_append_exists n t
  rw [hex, List.map_append]
  exact List.mem_append_left _ h

/-- After a merge, every nonempty item of the delta is present up to
case. -/
theorem lower_mem_addUnique_of_mem (n : List String) :
    ∀ t, ∀ i ∈ n, i ≠ "" → lowerStr i ∈ (addUnique t n).map lowerStr := by
  induction n with
  | nil => intro t i hi; cases hi
  | cons j n ih =>
    intro t i hi hne
    rw [addUnique_cons]
    rcases List.mem_cons.mp hi with rfl | hi
    · by_cases h : i ≠ "" ∧ lowerStr i ∉ t.map lowerStr
      · rw [if_pos h]
        apply mem_lower_addUnique
        simp
      · rw [if_neg h]
        apply mem_lower_addUnique
        by_contra hmem
        exact h ⟨hne, hmem⟩
    · exact ih _ i hi hne

/-- When every delta item is empty or already present up to case, the
merge is the identity. -/
theorem addUnique_eq_self (n : List String) :
    ∀ t, (∀ i ∈ n, i = "" ∨ lowerStr i ∈ t.map lowerStr) → addUnique t n = t := by
  induction n with
  | nil => intro t _; rfl
  | cons j n ih =>
    intro t h
    rw [addUnique_cons]
    have hj := h j (List.mem_cons_self j n)
    have hcond : ¬(j ≠ "" ∧ lowerStr j ∉ t.map lowerStr) := by
      rcases hj with hj | hj
      · intro hc; exact hc.1 hj
      · intro hc; exact hc.2 hj
    rw [if_neg hcond]
    exact ih t fun i hi => h i (List.mem_cons_of_mem _ hi)

theorem addUnique_idem (t n : List String) :
    addUnique (addUnique t n) n = addUnique t n := by
  apply addUnique_eq_self
  intro i hi
  by_cases hne : i = ""
  · exact Or.inl hne
  · exact Or.inr (lower_mem_addUnique_of_mem n t i hi hne)

/-- Merging preserves case-insensitive duplicate freedom. -/
theorem addUnique_nodup (n : List String) :
    ∀ t, (t.map lowerStr).Nodup → ((addUnique t n).map lowerStr).Nodup := by
  induction n with
  | nil => intro t h; exact h
  | cons j n ih =>
    intro t h
    rw [addUnique_cons]
    by_cases hc : j ≠ "" ∧ lowerStr j ∉ t.map lowerStr
    · rw [if_pos hc]
      apply ih
      rw [List.map_append]
      refine List.Nodup.append h (by simp) ?_
      intro x hx hx2
      simp only [List.map_cons, List.map_nil, List.mem_singleton] at hx2
      subst hx2
      exact hc.2 hx
    · rw [if_neg hc]; exact ih t h

theorem addUnique_ne_nil (t n : List String) (h : t ≠ []) : addUnique t n ≠ [] := by
  obtain ⟨ex, hex⟩ := addUnique_append_exists n t
  rw [hex]
  simp [h]

/-!
Section: lemmas about completeness
-/

theorem filledCount_le_four (p : StudentProfile) : p.filledCount ≤ 4 :=
  List.countP_le_length _

theorem filledCount_mono (p : StudentProfile) (d : ProfileDelta) :
    p.filledCount ≤ (updateProfile p d).filledCount := by
  have key : ∀ (x n : List String),
      (if (!x.isEmpty) = true then 1 else 0) ≤
        (if (!(addUnique x n).isEmpty) = true then 1 else 0) := by
    intro x n
    by_cases hx : x = []
    · subst hx; simp
    · have h2 : addUnique x n ≠ [] := addUnique_ne_nil x n hx
      simp [hx, h2]
  simp only [StudentProfile.filledCount, updateProfile, List.countP_cons, List.countP_nil]
  have k1 := key p.interests d.interests
  have k2 := key p.hobbies d.hobbies
  have k3 := key p.subjects d.subjects
  have k4 := key p.strengths d.strengths
  omega

theorem completeness_nonneg (p : StudentProfile) : 0 ≤ p.completeness := by
  unfold StudentProfile.completeness
  positivity

theorem completeness_le_one (p : StudentProfile) : p.completeness ≤ 1 := by
  unfold StudentProfile.completeness
  rw [div_le_one (by norm_num)]
  exact_mod_cast filledCount_le_four p

theorem completeness_mono (p : StudentProfile) (d : ProfileDelta) :
    p.completeness ≤ (updateProfile p d).completeness := by
  unfold StudentProfile.completeness
  gcongr
  exact_mod_cast filledCount_mono p d

/-!
Section: lemmas about the bounded history
-/

theorem trimHistory_length_le (maxH : Nat) (h : List Turn) (hmax : 1 ≤ maxH) :
    (trimHistory maxH h).length ≤ maxH := by
  unfold trimHistory
  by_cases hlen : h.length > maxH
  · rw [if_pos hlen, if_neg (by omega)]
    simp only [List.length_drop]
    omega
  · rw [if_neg hlen]; omega

/-- For a positive bound the trim keeps exactly the last
min(length, maxH) entries. -/
theorem trimHistory_length_eq (maxH : Nat) (h : List Turn) (hmax : 1 ≤ maxH) :
    (trimHistory maxH h).length = min h.length maxH := by
  unfold trimHistory
  by_cases hlen : h.length > maxH
  · rw [if_pos hlen, if_neg (by omega)]
    simp only [List.length_drop]
    omega
  · rw [if_neg hlen]
    omega

theorem trimHistory_suffix (maxH : Nat) (h : List Turn) :
    (trimHistory maxH h).IsSuffix h := by
  unfold trimHistory
  by_cases hlen : h.length > maxH
  · rw [if_pos hlen]
    by_cases h0 : maxH = 0
    · rw [if_pos h0]
    · rw [if_neg h0]
      exact List.drop_suffix _ _
  · rw [if_neg hlen]

theorem suffixAppendSingleton {l1 l2 : List Turn} (x : Turn) (h : l1.IsSuffix l2) :
    (l1 ++ [x]).IsSuffix (l2 ++ [x]) := by
  obtain ⟨t0, ht⟩ := h
  exact ⟨t0, by rw [← List.append_assoc, ht]⟩

/-!
Section: lemmas about the state-machine step functions
-/

theorem preResponseState_state (a : AgentState) (m : String) (t : TurnOracle) :
    (preResponseState a m t).state = a.state := by
  simp only [preResponseState]
  split <;> rfl

theorem preResponseState_profile (a : AgentState) (m : String) (t : TurnOracle) :
    (preResponseState a m t).profile = updateProfile a.profile t.extracted := by
  simp only [preResponseState]
  split <;> rfl

theorem preResponseState_recGiven (a : AgentState) (m : String) (t : TurnOracle) :
    (preResponseState a m t).recommendationsGiven = a.recommendationsGiven := by
  simp only [preResponseState]
  split <;> rfl

theorem preResponseState_maxHistory (a : AgentState) (m : String) (t : TurnOracle) :
    (preResponseState a m t).maxHistory = a.maxHistory := by
  simp only [preResponseState]
  split <;> rfl

theorem preResponseState_askedQuestions (a : AgentState) (m : String) (t : TurnOracle) :
    (preResponseState a m t).askedQuestions = a.askedQuestions := by
  simp only [preResponseState]
  split <;> rfl

theorem preResponseState_history (a : AgentState) (m : String) (t : TurnOracle) :
    (preResponseState a m t).conversationHistory =
      trimHistory a.maxHistory (a.conversationHistory ++ [⟨"student", m, a.state⟩]) := by
  simp only [preResponseState]
  split <;> rfl

theorem preResponseState_counter_zero (a : AgentState) (m : String) (t : TurnOracle)
    (h : updateProfile a.profile t.extracted ≠ a.profile ∨ isCareerRelatedQuestion m = true) :
    (preResponseState a m t).consecutiveClarifying = 0 := by
  unfold preResponseState
  rw [if_pos h]

theorem preResponseState_counter_succ (a : AgentState) (m : String) (t : TurnOracle)
    (h1 : updateProfile a.profile t.extracted = a.profile)
    (h2 : isCareerRelatedQuestion m = false) :
    (preResponseState a m t).consecutiveClarifying = a.consecutiveClarifying + 1 := by
  unfold preResponseState
  rw [if_neg (by simp [h1, h2])]

theorem appendCounselorTurn_state (a : AgentState) (r : Response) :
    (appendCounselorTurn a r).state = a.state := rfl

theorem appendCounselorTurn_recGiven (a : AgentState) (r : Response) :
    (appendCounselorTurn a r).recommendationsGiven = a.recommendationsGiven := rfl

theorem appendCounselorTurn_counter (a : AgentState) (r : Response) :
    (appendCounselorTurn a r).consecutiveClarifying = a.consecutiveClarifying := rfl

theorem appendCounselorTurn_history (a : AgentState) (r : Response) :
    (appendCounselorTurn a r).conversationHistory =
      trimHistory a.maxHistory
        (a.conversationHistory ++ [⟨"counselor", r.content, a.state⟩]) := rfl

theorem generateResponse_greeting (a : AgentState) (m : String) (t : TurnOracle)
    (h : a.state = ConversationState.greeting) :
    generateResponse a m t =
      ({ a with state := ConversationState.gatheringInfo }, greetingResponse) := by
  unfold generateResponse
  rw [if_pos h]

theorem generateResponse_career (a : AgentState) (m : String) (t : TurnOracle)
    (h1 : a.state ≠ ConversationState.greeting)
    (h2 : isCareerRelatedQuestion m = true)
    (h3 : 0 < a.profile.completeness) :
    generateResponse a m t =
      ({ a with state := ConversationState.discussing, recommendationsGiven := true },
        recommendationsResponse a.profile t.recText) := by
  unfold generateResponse
  rw [if_neg h1, if_pos ⟨h2, h3⟩]

theorem generateResponse_discussing (a : AgentState) (m : String) (t : TurnOracle)
    (h1 : a.state = ConversationState.discussing)
    (h2 : ¬(isCareerRelatedQuestion m = true ∧ 0 < a.profile.completeness)) :
    generateResponse a m t = (a, discussionResponse a.profile t.discText) := by
  unfold generateResponse
  rw [if_neg (by simp [h1]), if_neg h2, if_pos h1]

theorem generateResponse_forced (a : AgentState) (m : String) (t : TurnOracle)
    (h1 : a.state ≠ ConversationState.greeting)
    (h2 : a.state ≠ ConversationState.discussing)
    (h3 : ¬(isCareerRelatedQuestion m = true ∧ 0 < a.profile.completeness))
    (h4 : ¬(1 / 2 ≤ a.profile.completeness ∧ a.recommendationsGiven = false))
    (h5 : 3 < a.consecutiveClarifying) :
    generateResponse a m t =
      ({ a with
          state := ConversationState.discussing
          recommendationsGiven := true
          consecutiveClarifying := 0 },
        recommendationsResponse a.profile t.recText) := by
  unfold generateResponse
  rw [if_neg h1, if_neg h3, if_neg h2, if_neg h4, if_pos h5]

/-- Whatever branch runs, the no-new-info counter is either preserved or
zeroed by response generation. -/
theorem generateResponse_counter (a : AgentState) (m : String) (t : TurnOracle) :
    (generateResponse a m t).1.consecutiveClarifying = a.consecutiveClarifying ∨
    (generateResponse a m t).1.consecutiveClarifying = 0 := by
  unfold generateResponse
  split_ifs
  · exact Or.inl rfl
  · exact Or.inl rfl
  · exact Or.inl rfl
  · exact Or.inl rfl
  · exact Or.inr rfl
  · rcases t.questText with _ | q
    · exact Or.inl rfl
    · exact Or.inl rfl

/-- When the forced-patience guard cannot fire, response generation
preserves the counter. -/
theorem generateResponse_counter_of_low (a : AgentState) (m : String) (t : TurnOracle)
    (h : ¬ 3 < a.consecutiveClarifying) :
    (generateResponse a m t).1.consecutiveClarifying = a.consecutiveClarifying := by
  unfold generateResponse
  split_ifs
  · rfl
  · rfl
  · rfl
  · rfl
  · rcases t.questText with _ | q
    · rfl
    · rfl

/-- The discussing state is absorbing for response generation. -/
theorem generateResponse_state_discussing (a : AgentState) (m : String) (t : TurnOracle)
    (h : a.state = ConversationState.discussing) :
    (generateResponse a m t).1.state = ConversationState.discussing := by
  by_cases hc : isCareerRelatedQuestion m = true ∧ 0 < a.profile.completeness
  · rw [generateResponse_career a m t (by simp [h]) hc.1 hc.2]
  · rw [generateResponse_discussing a m t h hc]
    exact h

theorem processMessage_err (a : AgentState) (m : String) (t : TurnOracle)
    (herr : t.unexpectedError = true) :
    processMessage a m t =
      (preResponseState a m t, fallbackResponse (preResponseState a m t).state) := by
  unfold processMessage
  rw [if_pos herr]

theorem processMessage_ok (a : AgentState) (m : String) (t : TurnOracle)
    (herr : t.unexpectedError = false) :
    processMessage a m t =
      (appendCounselorTurn (generateResponse (preResponseState a m t) m t).1
          (generateResponse (preResponseState a m t) m t).2,
        (generateResponse (preResponseState a m t) m t).2) := by
  unfold processMessage
  rw [if_neg (by simp [herr])]

theorem recommendationsResponse_rtype (p : StudentProfile) (o : Option String) :
    (recommendationsResponse p o).rtype = ResponseType.recommendations := by
  cases o <;> rfl

theorem discussionResponse_rtype (p : StudentProfile) (o : Option String) :
    (discussionResponse p o).rtype = ResponseType.discussion := by
  cases o <;> rfl

/-- Response generation never touches the history. -/
theorem generateResponse_history (a : AgentState) (m : String) (t : TurnOracle) :
    (generateResponse a m t).1.conversationHistory = a.conversationHistory := by
  unfold generateResponse
  split_ifs
  · rfl
  · rfl
  · rfl
  · rfl
  · rfl
  · rcases t.questText with _ | q
    · rfl
    · rfl

/-- Response generation never touches the history bound. -/
theorem generateResponse_maxHistory (a : AgentState) (m : String) (t : TurnOracle) :
    (generateResponse a m t).1.maxHistory = a.maxHistory := by
  unfold generateResponse
  split_ifs
  · rfl
  · rfl
  · rfl
  · rfl
  · rfl
  · rcases t.questText with _ | q
    · rfl
    · rfl

/-!
Section: the claimed properties
-/

/-- C3: profile merge is idempotent — merging the same delta twice yields
exactly the profile obtained by merging it once — and every profile
reachable from the empty profile by merges has no two entries in the same
category that are equal up to case. -/
theorem mergeIdempotentAndDedupInvariant :
    (∀ (p : StudentProfile) (d : ProfileDelta),
      updateProfile (updateProfile p d) d = updateProfile p d) ∧
    (∀ p : StudentProfile, ReachableProfile p → profileInv p) := by
  constructor
  · intro p d
    simp only [updateProfile, StudentProfile.mk.injEq]
    exact ⟨addUnique_idem _ _, addUnique_idem _ _, addUnique_idem _ _, addUnique_idem _ _,
      addUnique_idem _ _, addUnique_idem _ _, addUnique_idem _ _⟩
  · intro p hp
    induction hp with
    | empty =>
      refine ⟨?_, ?_, ?_, ?_, ?_, ?_, ?_⟩ <;> simp [emptyProfile]
    | merge p d hp ih =>
      obtain ⟨h1, h2, h3, h4, h5, h6, h7⟩ := ih
      exact ⟨addUnique_nodup _ _ h1, addUnique_nodup _ _ h2, addUnique_nodup _ _ h3,
        addUnique_nodup _ _ h4, addUnique_nodup _ _ h5, addUnique_nodup _ _ h6,
        addUnique_nodup _ _ h7⟩

/-- Witness for C3: the idempotence and the invariant evaluated on the
concrete delta with mixed-case duplicates, merged into the empty
profile. -/
theorem mergeIdempotentAndDedupInvariant_witness :
    updateProfile (updateProfile emptyProfile exampleDelta) exampleDelta =
      updateProfile emptyProfile exampleDelta ∧
    profileInv (updateProfile emptyProfile exampleDelta) :=
  ⟨mergeIdempotentAndDedupInvariant.1 emptyProfile exampleDelta,
    mergeIdempotentAndDedupInvariant.2 (updateProfile emptyProfile exampleDelta)
      (ReachableProfile.merge emptyProfile exampleDelta ReachableProfile.empty)⟩

/-- C4: completeness always lies in [0, 1], and merging a delta never
decreases it. -/
theorem completenessBoundedAndMonotone :
    (∀ p : StudentProfile, 0 ≤ p.completeness ∧ p.completeness ≤ 1) ∧
    (∀ (p : StudentProfile) (d : ProfileDelta),
      p.completeness ≤ (updateProfile p d).completeness) :=
  ⟨fun p => ⟨completeness_nonneg p, completeness_le_one p⟩, completeness_mono⟩

/-- C10: completeness reads only the four core category lists — a delta
touching only dislikes, personality or goals leaves it unchanged — and its
value is always one of 0, 1/4, 1/2, 3/4, 1. -/
theorem completenessFrameAndRange :
    (∀ (p : StudentProfile) (d : ProfileDelta),
      d.interests = [] → d.hobbies = [] → d.subjects = [] → d.strengths = [] →
      (updateProfile p d).completeness = p.completeness) ∧
    (∀ p : StudentProfile,
      p.completeness = 0 ∨ p.completeness = 1 / 4 ∨ p.completeness = 1 / 2 ∨
      p.completeness = 3 / 4 ∨ p.completeness = 1) := by
  constructor
  · intro p d h1 h2 h3 h4
    have hfc : (updateProfile p d).filledCount = p.filledCount := by
      simp only [StudentProfile.filledCount, updateProfile, h1, h2, h3, h4, addUnique_nil]
    unfold StudentProfile.completeness
    rw [hfc]
  · intro p
    have hle := filledCount_le_four p
    have hcases : p.filledCount = 0 ∨ p.filledCount = 1 ∨ p.filledCount = 2 ∨
        p.filledCount = 3 ∨ p.filledCount = 4 := by omega
    unfold StudentProfile.completeness
    rcases hcases with h | h | h | h | h <;> rw [h] <;> norm_num

/-- Witness for C10: the frame condition on a goals-only delta over the
empty profile, and the range disjunction there. -/
theorem completenessFrameAndRange_witness :
    (updateProfile emptyProfile { emptyDelta with goals := ["Engineer"] }).completeness =
      emptyProfile.completeness ∧
    (emptyProfile.completeness = 0 ∨ emptyProfile.completeness = 1 / 4 ∨
      emptyProfile.completeness = 1 / 2 ∨ emptyProfile.completeness = 3 / 4 ∨
      emptyProfile.completeness = 1) :=
  ⟨completenessFrameAndRange.1 emptyProfile { emptyDelta with goals := ["Engineer"] }
      rfl rfl rfl rfl,
    completenessFrameAndRange.2 emptyProfile⟩

/-- C6: the deterministic fallback extractor applied to the fixed message
finds Biology among the subjects, Painting and Hiking among the hobbies,
and a nonempty interests list. -/
theorem fallbackExtractionOnSample :
    (extractInfoFallback sampleMessage).subjects.contains "Biology" = true ∧
    (extractInfoFallback sampleMessage).hobbies.contains "Painting" = true ∧
    (extractInfoFallback sampleMessage).hobbies.contains "Hiking" = true ∧
    (extractInfoFallback sampleMessage).interests ≠ [] := by
  refine ⟨by decide, by decide, by decide, by decide⟩

/-- Counterexample to C7 as stated: a profile whose concatenated text
contains both "software" and "computer" but also "nature", so the biology
cluster — checked first in the elif cascade — fires instead, and
Software Engineer is not among the produced titles. -/
theorem softwareComputerCounterexample :
    containsSub (allProfileText ["Software", "Computer", "Nature"] [] []) "software".toList
        = true ∧
    containsSub (allProfileText ["Software", "Computer", "Nature"] [] []) "computer".toList
        = true ∧
    "Software Engineer" ∉ recommendationTitles ["Software", "Computer", "Nature"] [] [] := by
  refine ⟨by decide, by decide, by decide⟩

/-- C7 (amended): for every profile whose concatenated
interests+subjects+hobbies text contains both "software" and "computer"
and matches none of the earlier clusters of the cascade (biology,
medicine, chemistry), the fallback selects the software branch of the
engineering cluster: the output titles are exactly ["Software Engineer"], and
the generic "Engineer" title is absent. -/
theorem softwareBranchSelected (interests subjects hobbies : List String)
    (hsoft : containsSub (allProfileText interests subjects hobbies) "software".toList = true)
    (hcomp : containsSub (allProfileText interests subjects hobbies) "computer".toList = true)
    (hbio : anyClusterWord (allProfileText interests subjects hobbies) bioClusterWords = false)
    (hmed : anyClusterWord (allProfileText interests subjects hobbies) medClusterWords = false)
    (hchem : anyClusterWord (allProfileText interests subjects hobbies) chemClusterWords
        = false) :
    recommendationTitles interests subjects hobbies = ["Software Engineer"] ∧
    "Engineer" ∉ recommendationTitles interests subjects hobbies := by
  have heng : anyClusterWord (allProfileText interests subjects hobbies) engClusterWords
      = true := by
    unfold anyClusterWord
    rw [List.any_eq_true]
    exact ⟨"software", by simp [engClusterWords], hsoft⟩
  have hres : recommendationTitles interests subjects hobbies = ["Software Engineer"] := by
    simp only [recommendationTitles, generateRecommendationsFallback]
    rw [if_neg (by simp [hbio]), if_neg (by simp [hmed]), if_neg (by simp [hchem]),
      if_pos heng, if_pos (by simp; exact Or.inl (Or.inl hsoft))]
    rfl
  refine ⟨hres, ?_⟩
  rw [hres]
  decide

/-- Witness for the amended C7 on a concrete profile that triggers only
the engineering cluster. -/
theorem softwareBranchSelected_witness :
    recommendationTitles ["Software", "Computers"] [] [] = ["Software Engineer"] ∧
    "Engineer" ∉ recommendationTitles ["Software", "Computers"] [] [] :=
  softwareBranchSelected ["Software", "Computers"] [] []
    (by decide) (by decide) (by decide) (by decide) (by decide)

/-- C1: a career-question-like message processed outside the Greeting
state with strictly positive completeness (of the profile as merged this
turn) yields a recommendations response, ends the turn in Discussing and
sets the recommendations-given flag — for every state and flag value, so
in particular this branch precedes the Discussing free-discussion branch
and the completeness-threshold branch. -/
theorem careerQuestionYieldsRecommendations (a : AgentState) (m : String) (t : TurnOracle)
    (hstate : a.state ≠ ConversationState.greeting)
    (hcq : isCareerRelatedQuestion m = true)
    (hcompl : 0 < (updateProfile a.profile t.extracted).completeness)
    (herr : t.unexpectedError = false) :
    (processMessage a m t).2.rtype = ResponseType.recommendations ∧
    (processMessage a m t).1.state = ConversationState.discussing ∧
    (processMessage a m t).1.recommendationsGiven = true := by
  rw [processMessage_ok a m t herr]
  rw [generateResponse_career (preResponseState a m t) m t
    (by rw [preResponseState_state]; exact hstate) hcq
    (by rw [preResponseState_profile]; exact hcompl)]
  exact ⟨recommendationsResponse_rtype _ _, rfl, rfl⟩

/-- Witness for C1: a career question asked from the Clarifying state of
the example agent, whose profile already has one interest. -/
theorem careerQuestionYieldsRecommendations_witness :
    (processMessage exampleAgent "what career should i pick" quietOracle).2.rtype
        = ResponseType.recommendations ∧
    (processMessage exampleAgent "what career should i pick" quietOracle).1.state
        = ConversationState.discussing ∧
    (processMessage exampleAgent "what career should i pick" quietOracle).1.recommendationsGiven
        = true :=
  careerQuestionYieldsRecommendations exampleAgent "what career should i pick" quietOracle
    (by decide) (by decide)
    (by
      have h1 : (updateProfile exampleAgent.profile quietOracle.extracted).filledCount = 1 :=
        rfl
      unfold StudentProfile.completeness
      rw [h1]
      norm_num)
    rfl

/-- C5: the embedded process_message is a total function into structured
responses (kind tag, text, metadata), and when an unexpected internal
error occurs during response generation the returned response is the
fixed fallback utterance for the current state, with kind fallback and
the metadata error flag set. -/
theorem unexpectedErrorYieldsFallback (a : AgentState) (m : String) (t : TurnOracle)
    (herr : t.unexpectedError = true) :
    (processMessage a m t).2.rtype = ResponseType.fallback ∧
    (processMessage a m t).2.content = fallbackContent a.state ∧
    (processMessage a m t).2.metadata.error = some true := by
  rw [processMessage_err a m t herr]
  refine ⟨rfl, ?_, rfl⟩
  show fallbackContent (preResponseState a m t).state = fallbackContent a.state
  rw [preResponseState_state]

/-- Witness for C5: the crashing oracle on the example agent (whose state
is Clarifying, so the clarifying fallback utterance is returned). -/
theorem unexpectedErrorYieldsFallback_witness :
    (processMessage exampleAgent "hello" crashOracle).2.rtype = ResponseType.fallback ∧
    (processMessage exampleAgent "hello" crashOracle).2.content
        = fallbackContent exampleAgent.state ∧
    (processMessage exampleAgent "hello" crashOracle).2.metadata.error = some true :=
  unexpectedErrorYieldsFallback exampleAgent "hello" crashOracle rfl

/-- C8: reset restores the Greeting state, a fully empty profile, empty
history and asked-questions list, a zero no-new-info counter and a cleared
recommendations-given flag, and the next normally processed message is
answered with a response of kind greeting. -/
theorem resetRestoresGreeting (a : AgentState) (m : String) (t : TurnOracle)
    (herr : t.unexpectedError = false) :
    a.reset.state = ConversationState.greeting ∧
    a.reset.profile = emptyProfile ∧
    a.reset.conversationHistory = [] ∧
    a.reset.askedQuestions = [] ∧
    a.reset.consecutiveClarifying = 0 ∧
    a.reset.recommendationsGiven = false ∧
    (processMessage a.reset m t).2.rtype = ResponseType.greeting := by
  refine ⟨rfl, rfl, rfl, rfl, rfl, rfl, ?_⟩
  rw [processMessage_ok a.reset m t herr]
  rw [generateResponse_greeting (preResponseState a.reset m t) m t
    (by rw [preResponseState_state]; rfl)]
  rfl

/-- Witness for C8: resetting the example agent mid-session and sending
another message. -/
theorem resetRestoresGreeting_witness :
    exampleAgent.reset.state = ConversationState.greeting ∧
    exampleAgent.reset.profile = emptyProfile ∧
    exampleAgent.reset.conversationHistory = [] ∧
    exampleAgent.reset.askedQuestions = [] ∧
    exampleAgent.reset.consecutiveClarifying = 0 ∧
    exampleAgent.reset.recommendationsGiven = false ∧
    (processMessage exampleAgent.reset "hi there" quietOracle).2.rtype
        = ResponseType.greeting :=
  resetRestoresGreeting exampleAgent "hi there" quietOracle rfl

/-- C9 (amended): provided the configured maximum is at least 1, the
history after every completed process_message call holds at most
maxHistory turns, and the retained history is exactly the FIFO tail of the
appended sequence: it is a suffix of the previous history extended by this
turn's concrete appends — the student turn, then (on a normal turn) the
counselor turn carrying the returned content — and its length is
min(previous + appends, maxHistory); together the suffix and the length
determine the retained history uniquely, so only the oldest turns are
evicted, and only after appends. (For a configured maximum of 0 the
Python slice [-0:] keeps the entire list, so the bound fails there; see
the counterexample.) -/
theorem historyBoundedFIFO (a : AgentState) (m : String) (t : TurnOracle)
    (hmax : 1 ≤ a.maxHistory) :
    (processMessage a m t).1.conversationHistory.length ≤ a.maxHistory ∧
    (t.unexpectedError = true →
      (processMessage a m t).1.conversationHistory.IsSuffix
        (a.conversationHistory ++ [⟨"student", m, a.state⟩]) ∧
      (processMessage a m t).1.conversationHistory.length =
        min (a.conversationHistory.length + 1) a.maxHistory) ∧
    (t.unexpectedError = false →
      (processMessage a m t).1.conversationHistory.IsSuffix
        (a.conversationHistory ++ [⟨"student", m, a.state⟩,
          ⟨"counselor", (processMessage a m t).2.content,
            (processMessage a m t).1.state⟩]) ∧
      (processMessage a m t).1.conversationHistory.length =
        min (a.conversationHistory.length + 2) a.maxHistory) := by
  rcases herr : t.unexpectedError with _ | _
  · simp only [processMessage_ok a m t herr]
    have hist3 := preResponseState_history a m t
    have hmax3 := preResponseState_maxHistory a m t
    have histg := generateResponse_history (preResponseState a m t) m t
    have hmaxg := generateResponse_maxHistory (preResponseState a m t) m t
    refine ⟨?_, ?_, ?_⟩
    · rw [appendCounselorTurn_history, hmaxg, hmax3]
      exact trimHistory_length_le _ _ hmax
    · intro hcontra
      simp [herr] at hcontra
    · intro _
      rw [appendCounselorTurn_state, appendCounselorTurn_history, hmaxg, hmax3, histg, hist3]
      constructor
      · apply List.IsSuffix.trans (trimHistory_suffix _ _)
        have hmid := trimHistory_suffix a.maxHistory
          (a.conversationHistory ++ [⟨"student", m, a.state⟩])
        have hstep := suffixAppendSingleton
          (⟨"counselor", (generateResponse (preResponseState a m t) m t).2.content,
            (generateResponse (preResponseState a m t) m t).1.state⟩ : Turn) hmid
        simpa [List.append_assoc] using hstep
      · rw [trimHistory_length_eq _ _ hmax, List.length_append,
          trimHistory_length_eq _ _ hmax, List.length_append]
        simp only [List.length_cons, List.length_nil]
        omega
  · simp only [processMessage_err a m t herr]
    have hist3 := preResponseState_history a m t
    refine ⟨?_, ?_, ?_⟩
    · rw [hist3]
      exact trimHistory_length_le _ _ hmax
    · intro _
      rw [hist3]
      refine ⟨trimHistory_suffix _ _, ?_⟩
      rw [trimHistory_length_eq _ _ hmax, List.length_append]
      simp only [List.length_cons, List.length_nil]
    · intro hcontra
      simp [herr] at hcontra

/-- Witness for the amended C9: the busy agent is at its bound of 2 with
two turns on file, so processing this message really evicts the two old
turns and retains exactly the student and counselor turns of this
turn. -/
theorem historyBoundedFIFO_witness :
    (processMessage busyAgent "hello" quietOracle).1.conversationHistory.length
        ≤ busyAgent.maxHistory ∧
    (quietOracle.unexpectedError = true →
      (processMessage busyAgent "hello" quietOracle).1.conversationHistory.IsSuffix
        (busyAgent.conversationHistory ++ [⟨"student", "hello", busyAgent.state⟩]) ∧
      (processMessage busyAgent "hello" quietOracle).1.conversationHistory.length =
        min (busyAgent.conversationHistory.length + 1) busyAgent.maxHistory) ∧
    (quietOracle.unexpectedError = false →
      (processMessage busyAgent "hello" quietOracle).1.conversationHistory.IsSuffix
        (busyAgent.conversationHistory ++ [⟨"student", "hello", busyAgent.state⟩,
          ⟨"counselor", (processMessage busyAgent "hello" quietOracle).2.content,
            (processMessage busyAgent "hello" quietOracle).1.state⟩]) ∧
      (processMessage busyAgent "hello" quietOracle).1.conversationHistory.length =
        min (busyAgent.conversationHistory.length + 2) busyAgent.maxHistory) :=
  historyBoundedFIFO busyAgent "hello" quietOracle (by decide)

/-- Counterexample to C9 as stated: with a configured maximum of 0 the
Python trim slice [-0:] keeps the whole list, so after one processed
message the history holds 2 > 0 turns. -/
theorem historyBoundCounterexample :
    (initialAgent 0).maxHistory = 0 ∧
    (processMessage (initialAgent 0) "hi" quietOracle).1.conversationHistory.length = 2 := by
  refine ⟨rfl, ?_⟩
  decide

/-- C2: the no-new-info patience machinery. (1) The counter is reset to 0
whenever the profile changed this turn or the message is
career-question-like. (2) On at least the fourth consecutive
uninformative, non-career message (so with the counter already at 3 or
more) in an information-gathering state — not Greeting, not Discussing,
with the completeness-threshold branch not applicable — the machine
forces a recommendations response, ends the turn in Discussing, sets the
flag and resets the counter to 0. (3) Such messages increment the counter
by exactly one whenever the forced transition cannot fire: while the
counter is still below 3, or once the session is Discussing. (4) The
Discussing state is absorbing and from it a recommendations response
arises only for a career-question-like message, so the forced transition
fires at most once per session: it ends in Discussing and can never fire
again. -/
theorem patienceForcedTransition :
    (∀ (a : AgentState) (m : String) (t : TurnOracle),
      (updateProfile a.profile t.extracted ≠ a.profile ∨ isCareerRelatedQuestion m = true) →
      (processMessage a m t).1.consecutiveClarifying = 0) ∧
    (∀ (a : AgentState) (m : String) (t : TurnOracle),
      updateProfile a.profile t.extracted = a.profile →
      isCareerRelatedQuestion m = false →
      t.unexpectedError = false →
      a.state ≠ ConversationState.greeting →
      a.state ≠ ConversationState.discussing →
      ¬(1 / 2 ≤ a.profile.completeness ∧ a.recommendationsGiven = false) →
      3 ≤ a.consecutiveClarifying →
      (processMessage a m t).2.rtype = ResponseType.recommendations ∧
      (processMessage a m t).1.state = ConversationState.discussing ∧
      (processMessage a m t).1.recommendationsGiven = true ∧
      (processMessage a m t).1.consecutiveClarifying = 0) ∧
    (∀ (a : AgentState) (m : String) (t : TurnOracle),
      updateProfile a.profile t.extracted = a.profile →
      isCareerRelatedQuestion m = false →
      (a.consecutiveClarifying < 3 ∨ a.state = ConversationState.discussing) →
      (processMessage a m t).1.consecutiveClarifying = a.consecutiveClarifying + 1) ∧
    (∀ (a : AgentState) (m : String) (t : TurnOracle),
      a.state = ConversationState.discussing →
      (processMessage a m t).1.state = ConversationState.discussing ∧
      (t.unexpectedError = false →
        (processMessage a m t).2.rtype = ResponseType.recommendations →
        isCareerRelatedQuestion m = true)) := by
  refine ⟨?_, ?_, ?_, ?_⟩
  · intro a m t h
    have h0 := preResponseState_counter_zero a m t h
    rcases herr : t.unexpectedError with _ | _
    · rw [processMessage_ok a m t herr, appendCounselorTurn_counter]
      rcases generateResponse_counter (preResponseState a m t) m t with hg | hg
      · rw [hg, h0]
      · rw [hg]
    · rw [processMessage_err a m t herr]
      exact h0
  · intro a m t hsame hcq herr hg hd hth hc3
    have hps := preResponseState_state a m t
    have hpp : (preResponseState a m t).profile = a.profile := by
      rw [preResponseState_profile, hsame]
    have hpr := preResponseState_recGiven a m t
    have hcc : (preResponseState a m t).consecutiveClarifying =
        a.consecutiveClarifying + 1 :=
      preResponseState_counter_succ a m t hsame hcq
    rw [processMessage_ok a m t herr]
    rw [generateResponse_forced (preResponseState a m t) m t
      (by rw [hps]; exact hg)
      (by rw [hps]; exact hd)
      (by intro hx; rw [hcq] at hx; exact absurd hx.1 (by decide))
      (by rw [hpp, hpr]; exact hth)
      (by rw [hcc]; omega)]
    exact ⟨recommendationsResponse_rtype _ _, rfl, rfl, rfl⟩
  · intro a m t hsame hcq hcase
    have hcc := preResponseState_counter_succ a m t hsame hcq
    rcases herr : t.unexpectedError with _ | _
    · rw [processMessage_ok a m t herr, appendCounselorTurn_counter]
      rcases hcase with hlow | hdisc
      · rw [generateResponse_counter_of_low (preResponseState a m t) m t
          (by rw [hcc]; omega), hcc]
      · rw [generateResponse_discussing (preResponseState a m t) m t
          (by rw [preResponseState_state]; exact hdisc)
          (by intro hx; rw [hcq] at hx; exact absurd hx.1 (by decide))]
        exact hcc
    · rw [processMessage_err a m t herr]
      exact hcc
  · intro a m t hdisc
    constructor
    · rcases herr : t.unexpectedError with _ | _
      · rw [processMessage_ok a m t herr, appendCounselorTurn_state]
        exact generateResponse_state_discussing (preResponseState a m t) m t
          (by rw [preResponseState_state]; exact hdisc)
      · rw [processMessage_err a m t herr]
        rw [preResponseState_state]
        exact hdisc
    · intro herr hrec
      by_contra hcq
      rw [Bool.not_eq_true] at hcq
      rw [processMessage_ok a m t herr] at hrec
      simp only [generateResponse_discussing (preResponseState a m t) m t
        (by rw [preResponseState_state]; exact hdisc)
        (by intro hx; rw [hcq] at hx; exact absurd hx.1 (by decide)),
        discussionResponse_rtype] at hrec
      exact absurd hrec (by decide)

/-- Witness for C2: the forcing clause evaluated on the example agent —
in the Clarifying state with the counter at 3 — receiving a fourth
consecutive uninformative, non-career message. -/
theorem patienceForcedTransition_witness :
    (processMessage exampleAgent "hello there" quietOracle).2.rtype
        = ResponseType.recommendations ∧
    (processMessage exampleAgent "hello there" quietOracle).1.state
        = ConversationState.discussing ∧
    (processMessage exampleAgent "hello there" quietOracle).1.recommendationsGiven = true ∧
    (processMessage exampleAgent "hello there" quietOracle).1.consecutiveClarifying = 0 :=
  patienceForcedTransition.2.1 exampleAgent "hello there" quietOracle rfl (by decide) rfl
    (by decide) (by decide)
    (by intro hx; exact absurd hx.2 (by decide))
    (by decide)
